import Mathlib

/-!
Shallow embedding of `src/server.js` of the metaapi-server-deploy repository:
an Express HTTP gateway that forwards trading operations to the MetaApi
cloud SDK.  Every POST route destructures a JSON body, validates presence of
required fields, constructs a MetaApi client, performs a sequence of awaited
SDK calls, and serializes a projected result; a single generic catch per
route maps any thrown error to an HTTP 500 response.

The embedding models:
  * JavaScript request-body values (`JsVal`) with JS truthiness, since the
    field guards use `!field`;
  * the MetaApi SDK as an oracle (`Provider`) giving each call's result,
    each call fallible (`Except String`, the `String` being the thrown
    error's `.message`; the empty string stands for a falsy/absent message);
  * each route handler as a pure function from the provider oracle and the
    request body to the HTTP response together with the ordered trace of
    provider calls it performed (`List ProviderCall`).
The wall clock read by `Date.now()` / `new Date()` in the get-history route
is abstracted to a single instant `now : ℤ` (milliseconds) per request.
-/

/-- A JavaScript value as it can appear in a parsed JSON request body
(plus `undefined` for an absent field).  `num none` is `NaN`. -/
inductive JsVal where
  | undefined
  | null
  | bool (b : Bool)
  | num (q : Option ℚ)
  | str (s : String)
  deriving DecidableEq

/-- JavaScript truthiness: `undefined`, `null`, `false`, `0`, `NaN` and the
empty string are falsy; everything else is truthy.  This is what the route
guards `if (!field)` test. -/
def truthy : JsVal → Bool
  | .undefined => false
  | .null => false
  | .bool b => b
  | .num none => false
  | .num (some q) => !(q = 0 : Bool)
  | .str s => !(s = "" : Bool)

/-- Decimal digits to a natural number, by left fold. -/
def digitsToNat (cs : List Char) : ℕ :=
  cs.foldl (fun n c => 10 * n + (c.toNat - 48)) 0

/-- Parse a sign / integer part / optional fraction from the front of a
character list, returning the value and the unconsumed rest (exponent
forms are not exercised by the routes' inputs and are out of scope).
Returns `none` (NaN) when no digit is found. -/
def parseNumChars (cs : List Char) : Option (ℚ × List Char) :=
  let (sgn, cs1) : ℚ × List Char :=
    match cs with
    | '-' :: r => (-1, r)
    | '+' :: r => (1, r)
    | _ => (1, cs)
  let ip := cs1.takeWhile Char.isDigit
  let r1 := cs1.drop ip.length
  let (fp, rest) :=
    match r1 with
    | '.' :: r2 => (r2.takeWhile Char.isDigit, r2.drop (r2.takeWhile Char.isDigit).length)
    | _ => ([], r1)
  if ip.isEmpty && fp.isEmpty then none
  else some (sgn * ((digitsToNat ip : ℚ) + (digitsToNat fp : ℚ) / (10 : ℚ) ^ fp.length), rest)

/-- JavaScript `parseFloat` on a character list: the longest numeric
front segment, NaN (`none`) when there is none. -/
def parseFloatChars (cs : List Char) : Option ℚ :=
  (parseNumChars cs).map Prod.fst

/-- JavaScript `parseFloat` on a request-body value: numbers pass through,
strings are parsed after skipping leading spaces, everything else is NaN
(`none`). -/
def jsParseFloat : JsVal → Option ℚ
  | .num q => q
  | .str s => parseFloatChars (s.data.dropWhile (fun c => c == ' '))
  | _ => none

/-- The idiom `parseFloat(x) || undefined` used for stopLoss/takeProfit:
a NaN (unparseable) or zero result collapses to `undefined` (`none`). -/
def numOrUndefined : Option ℚ → Option ℚ
  | none => none
  | some q => if q = 0 then none else some q

/-- JSON values as serialized into HTTP response bodies by `res.json`. -/
inductive Json where
  | null
  | bool (b : Bool)
  | num (q : ℚ)
  | str (s : String)
  | arr (xs : List Json)
  | obj (kvs : List (String × Json))

/-- An account object as returned by the provider's directory listing:
the nine attributes the gateway projects, plus arbitrary further
provider-internal fields (`extra`) that the projection must not leak. -/
structure Account where
  id : String
  name : String
  type : String
  login : String
  server : String
  region : String
  state : String
  connectionStatus : String
  magic : ℚ
  extra : List (String × String)

/-- Account-information snapshot returned by `getAccountInformation`. -/
structure AccountInfo where
  balance : ℚ
  equity : ℚ
  currency : String

/-- Result object of a market order. -/
structure TradeResult where
  orderId : String
  positionId : String

/-- Result object of `closePosition`. -/
structure CloseResult where
  orderId : String

/-- An open position as returned by `getPositions`. -/
structure Position where
  id : String
  symbol : String
  type : String
  volume : ℚ
  openPrice : ℚ
  currentPrice : ℚ
  profit : ℚ
  swap : ℚ
  commission : ℚ
  stopLoss : ℚ
  takeProfit : ℚ
  time : String

/-- A historical deal as returned by `getHistoryDealsByTimeRange`. -/
structure Deal where
  id : String
  symbol : String
  type : String
  volume : ℚ
  entryPrice : ℚ
  price : ℚ
  profit : ℚ
  commission : ℚ
  swap : ℚ
  time : String
  platform : String
  magic : ℚ
  comment : String

/-- A `Date` argument passed to the provider: either an exact millisecond
instant (`new Date(number)` / `new Date()`), or a date built from a
caller-supplied body value (`new Date(startTime)`), left uninterpreted. -/
inductive JsDate where
  | ofMillis (ms : ℤ)
  | ofValue (v : JsVal)
  deriving DecidableEq

/-- One call made against the MetaApi SDK (client construction included),
recorded in the order the route performs them. -/
inductive ProviderCall where
  | newMetaApi (token : JsVal)
  | getAccounts
  | getAccount (accountId : JsVal)
  | deploy
  | waitDeployed
  | getRPCConnection
  | connect
  | waitSynchronized
  | getAccountInformation
  | createMarketBuyOrder (symbol : JsVal) (volume sl tp : Option ℚ)
  | createMarketSellOrder (symbol : JsVal) (volume sl tp : Option ℚ)
  | getPositions
  | closePosition (positionId : JsVal)
  | getHistoryDealsByTimeRange (startTime endTime : JsDate)
  deriving DecidableEq

/-- The trace of provider calls a route performed, in order. -/
abbrev Trace := List ProviderCall

/-- The MetaApi SDK modelled as an oracle: the result each call would
return, `.error m` meaning the call throws an error whose `.message` is `m`
(the empty string standing for a falsy message). -/
structure Provider where
  accountsRes : Except String (List Account)
  getAccountRes : JsVal → Except String Account
  deployRes : Except String Unit
  waitDeployedRes : Except String Unit
  connectRes : Except String Unit
  waitSyncRes : Except String Unit
  accountInfoRes : Except String AccountInfo
  marketBuyRes : JsVal → Option ℚ → Option ℚ → Option ℚ → Except String TradeResult
  marketSellRes : JsVal → Option ℚ → Option ℚ → Option ℚ → Except String TradeResult
  positionsRes : Except String (List Position)
  closePositionRes : JsVal → Except String CloseResult
  historyDealsRes : JsDate → JsDate → Except String (List Deal)

/-- The parsed JSON request body; a field a caller did not send is
`undefined`. -/
structure ReqBody where
  token : JsVal := .undefined
  accountId : JsVal := .undefined
  symbol : JsVal := .undefined
  direction : JsVal := .undefined
  volume : JsVal := .undefined
  stopLoss : JsVal := .undefined
  takeProfit : JsVal := .undefined
  positionId : JsVal := .undefined
  limit : JsVal := .undefined
  startTime : JsVal := .undefined

/-- An HTTP response: status code and serialized JSON body. -/
structure HttpResponse where
  status : ℕ
  body : Json

def mkResp (status : ℕ) (body : Json) : HttpResponse := ⟨status, body⟩

/-- `error.message || fallback`: the route-specific fallback replaces a
falsy (empty/absent) message. -/
def msgOr (e fallback : String) : String := if e = "" then fallback else e

/-- The uniform failure envelope every catch block serializes. -/
def errBody (m : String) : Json :=
  Json.obj [("success", .bool false), ("error", .str m)]

/-- `res.status(500).json({success:false, error: error.message || fallback})`. -/
def err500 (e fallback : String) : HttpResponse :=
  mkResp 500 (errBody (msgOr e fallback))

/-- `new MetaApi(token)` followed by
`metaApi.metatraderAccountApi.getAccount(accountId)`. -/
def resolveAccount (p : Provider) (token accountId : JsVal) :
    Except String Account × Trace :=
  (p.getAccountRes accountId, [.newMetaApi token, .getAccount accountId])

/-- `if (account.state !== 'DEPLOYED') { await account.deploy(); await
account.waitDeployed(); }` — the Lifecycle Guard shared by test-connection,
execute-trade, get-positions and get-history. -/
def ensureDeployed (p : Provider) (state : String) : Except String Unit × Trace :=
  if state = "DEPLOYED" then (.ok (), [])
  else
    match p.deployRes with
    | .error e => (.error e, [.deploy])
    | .ok _ =>
      match p.waitDeployedRes with
      | .error e => (.error e, [.deploy, .waitDeployed])
      | .ok _ => (.ok (), [.deploy, .waitDeployed])

/-- `account.getRPCConnection(); await connection.connect(); await
connection.waitSynchronized();`. -/
def connectAndSync (p : Provider) : Except String Unit × Trace :=
  match p.connectRes with
  | .error e => (.error e, [.getRPCConnection, .connect])
  | .ok _ =>
    match p.waitSyncRes with
    | .error e => (.error e, [.getRPCConnection, .connect, .waitSynchronized])
    | .ok _ => (.ok (), [.getRPCConnection, .connect, .waitSynchronized])

/-- The clean account projection the accounts route maps each provider
account through: exactly the nine documented attributes. -/
def cleanAccountJson (a : Account) : Json :=
  Json.obj [("id", .str a.id), ("name", .str a.name), ("type", .str a.type),
    ("login", .str a.login), ("server", .str a.server), ("region", .str a.region),
    ("state", .str a.state), ("connectionStatus", .str a.connectionStatus),
    ("magic", .num a.magic)]

/-- `POST /api/metaapi/accounts` (src/server.js lines 22-60). -/
def accountsRoute (p : Provider) (b : ReqBody) : HttpResponse × Trace :=
  if !truthy b.token then
    (mkResp 400 (Json.obj [("error", .str "Token is required")]), [])
  else
    match p.accountsRes with
    | .error e => (err500 e "Failed to fetch accounts", [.newMetaApi b.token, .getAccounts])
    | .ok accounts =>
      (mkResp 200 (Json.obj [("success", .bool true),
        ("accounts", .arr (accounts.map cleanAccountJson))]),
       [.newMetaApi b.token, .getAccounts])

/-- `POST /api/metaapi/test-connection` (src/server.js lines 63-102). -/
def testConnection (p : Provider) (b : ReqBody) : HttpResponse × Trace :=
  if !(truthy b.token && truthy b.accountId) then
    (mkResp 400 (Json.obj [("error", .str "Token and accountId are required")]), [])
  else
    match resolveAccount p b.token b.accountId with
    | (.error e, t) => (err500 e "Connection test failed", t)
    | (.ok acct, t) =>
      match ensureDeployed p acct.state with
      | (.error e, t2) => (err500 e "Connection test failed", t ++ t2)
      | (.ok _, t2) =>
        match connectAndSync p with
        | (.error e, t3) => (err500 e "Connection test failed", t ++ t2 ++ t3)
        | (.ok _, t3) =>
          match p.accountInfoRes with
          | .error e =>
            (err500 e "Connection test failed",
             t ++ t2 ++ t3 ++ [.getAccountInformation])
          | .ok info =>
            (mkResp 200 (Json.obj [("success", .bool true),
              ("message", .str "Connection successful"),
              ("balance", .num info.balance), ("equity", .num info.equity),
              ("currency", .str info.currency)]),
             t ++ t2 ++ t3 ++ [.getAccountInformation])

/-- `String.prototype.toUpperCase` on the ASCII range (the route compares
the uppercased direction against the ASCII literals BUY and SELL). -/
def toUpperString (s : String) : String := ⟨s.data.map Char.toUpper⟩

/-- Success body of execute-trade. -/
def tradeOkBody (r : TradeResult) : Json :=
  Json.obj [("success", .bool true),
    ("result", .obj [("order", .str r.orderId), ("position", .str r.positionId),
      ("status", .str "executed")])]

/-- The 400 body for an unrecognized direction. -/
def badDirectionBody : Json :=
  Json.obj [("success", .bool false), ("error", .str "Direction must be BUY or SELL")]

/-- `POST /api/metaapi/execute-trade` (src/server.js lines 105-172).
The direction dispatch happens only after account resolution, the
lifecycle guard and connection synchronization; `direction.toUpperCase()`
on a truthy non-string throws a TypeError that the generic catch turns
into a 500. -/
def executeTrade (p : Provider) (b : ReqBody) : HttpResponse × Trace :=
  if !(truthy b.token && truthy b.accountId && truthy b.symbol &&
       truthy b.direction && truthy b.volume) then
    (mkResp 400 (Json.obj [("success", .bool false),
      ("error", .str "Missing required fields: token, accountId, symbol, direction, volume")]), [])
  else
    match resolveAccount p b.token b.accountId with
    | (.error e, t) => (err500 e "Trade execution failed", t)
    | (.ok acct, t) =>
      match ensureDeployed p acct.state with
      | (.error e, t2) => (err500 e "Trade execution failed", t ++ t2)
      | (.ok _, t2) =>
        match connectAndSync p with
        | (.error e, t3) => (err500 e "Trade execution failed", t ++ t2 ++ t3)
        | (.ok _, t3) =>
          match b.direction with
          | .str s =>
            if toUpperString s = "BUY" then
              match p.marketBuyRes b.symbol (jsParseFloat b.volume)
                  (numOrUndefined (jsParseFloat b.stopLoss))
                  (numOrUndefined (jsParseFloat b.takeProfit)) with
              | .error e =>
                (err500 e "Trade execution failed",
                 t ++ t2 ++ t3 ++ [.createMarketBuyOrder b.symbol (jsParseFloat b.volume)
                   (numOrUndefined (jsParseFloat b.stopLoss))
                   (numOrUndefined (jsParseFloat b.takeProfit))])
              | .ok r =>
                (mkResp 200 (tradeOkBody r),
                 t ++ t2 ++ t3 ++ [.createMarketBuyOrder b.symbol (jsParseFloat b.volume)
                   (numOrUndefined (jsParseFloat b.stopLoss))
                   (numOrUndefined (jsParseFloat b.takeProfit))])
            else if toUpperString s = "SELL" then
              match p.marketSellRes b.symbol (jsParseFloat b.volume)
                  (numOrUndefined (jsParseFloat b.stopLoss))
                  (numOrUndefined (jsParseFloat b.takeProfit)) with
              | .error e =>
                (err500 e "Trade execution failed",
                 t ++ t2 ++ t3 ++ [.createMarketSellOrder b.symbol (jsParseFloat b.volume)
                   (numOrUndefined (jsParseFloat b.stopLoss))
                   (numOrUndefined (jsParseFloat b.takeProfit))])
              | .ok r =>
                (mkResp 200 (tradeOkBody r),
                 t ++ t2 ++ t3 ++ [.createMarketSellOrder b.symbol (jsParseFloat b.volume)
                   (numOrUndefined (jsParseFloat b.stopLoss))
                   (numOrUndefined (jsParseFloat b.takeProfit))])
            else
              (mkResp 400 badDirectionBody, t ++ t2 ++ t3)
          | _ =>
            (err500 "direction.toUpperCase is not a function" "Trade execution failed",
             t ++ t2 ++ t3)

/-- The position projection of the get-positions route. -/
def positionJson (pos : Position) : Json :=
  Json.obj [("id", .str pos.id), ("symbol", .str pos.symbol),
    ("type", .str pos.type), ("volume", .num pos.volume),
    ("openPrice", .num pos.openPrice), ("currentPrice", .num pos.currentPrice),
    ("profit", .num pos.profit), ("swap", .num pos.swap),
    ("commission", .num pos.commission), ("stopLoss", .num pos.stopLoss),
    ("takeProfit", .num pos.takeProfit), ("time", .str pos.time)]

/-- `POST /api/metaapi/get-positions` (src/server.js lines 175-225). -/
def getPositionsRoute (p : Provider) (b : ReqBody) : HttpResponse × Trace :=
  if !(truthy b.token && truthy b.accountId) then
    (mkResp 400 (Json.obj [("error", .str "Token and accountId are required")]), [])
  else
    match resolveAccount p b.token b.accountId with
    | (.error e, t) => (err500 e "Failed to fetch positions", t)
    | (.ok acct, t) =>
      match ensureDeployed p acct.state with
      | (.error e, t2) => (err500 e "Failed to fetch positions", t ++ t2)
      | (.ok _, t2) =>
        match connectAndSync p with
        | (.error e, t3) => (err500 e "Failed to fetch positions", t ++ t2 ++ t3)
        | (.ok _, t3) =>
          match p.positionsRes with
          | .error e =>
            (err500 e "Failed to fetch positions", t ++ t2 ++ t3 ++ [.getPositions])
          | .ok positions =>
            (mkResp 200 (Json.obj [("success", .bool true),
              ("positions", .arr (positions.map positionJson))]),
             t ++ t2 ++ t3 ++ [.getPositions])

/-- `POST /api/metaapi/close-position` (src/server.js lines 228-264).
Note: this route has no lifecycle guard — it connects without checking
the account's deployed state. -/
def closePositionRoute (p : Provider) (b : ReqBody) : HttpResponse × Trace :=
  if !(truthy b.token && truthy b.accountId && truthy b.positionId) then
    (mkResp 400 (Json.obj [("error", .str "Token, accountId, and positionId are required")]), [])
  else
    match resolveAccount p b.token b.accountId with
    | (.error e, t) => (err500 e "Failed to close position", t)
    | (.ok _, t) =>
      match connectAndSync p with
      | (.error e, t3) => (err500 e "Failed to close position", t ++ t3)
      | (.ok _, t3) =>
        match p.closePositionRes b.positionId with
        | .error e =>
          (err500 e "Failed to close position", t ++ t3 ++ [.closePosition b.positionId])
        | .ok r =>
          (mkResp 200 (Json.obj [("success", .bool true),
            ("result", .obj [("orderId", .str r.orderId),
              ("message", .str "Position closed successfully")])]),
           t ++ t3 ++ [.closePosition b.positionId])

/-- One entry of the close-all-positions result list. -/
inductive CloseEntry where
  | ok (positionId orderId : String)
  | fail (positionId errorMsg : String)

/-- Whether an entry reports success (`r.success`). -/
def CloseEntry.isOk : CloseEntry → Bool
  | .ok _ _ => true
  | .fail _ _ => false

/-- Serialization of one result entry. -/
def closeEntryJson : CloseEntry → Json
  | .ok pid oid =>
    .obj [("positionId", .str pid), ("success", .bool true), ("orderId", .str oid)]
  | .fail pid e =>
    .obj [("positionId", .str pid), ("success", .bool false), ("error", .str e)]

/-- The `for (const position of positions)` loop of close-all-positions:
each close is attempted under its own try/catch, results pushed in
iteration order, every attempted close recorded in the trace. -/
def closeEntries (p : Provider) : List Position → List CloseEntry × Trace
  | [] => ([], [])
  | pos :: rest =>
    let entry :=
      match p.closePositionRes (.str pos.id) with
      | .ok r => CloseEntry.ok pos.id r.orderId
      | .error e => CloseEntry.fail pos.id e
    let (entries, tr) := closeEntries p rest
    (entry :: entries, .closePosition (.str pos.id) :: tr)

/-- `POST /api/metaapi/close-all-positions` (src/server.js lines 267-309).
Note: like close-position, this route has no lifecycle guard. -/
def closeAllPositionsRoute (p : Provider) (b : ReqBody) : HttpResponse × Trace :=
  if !(truthy b.token && truthy b.accountId) then
    (mkResp 400 (Json.obj [("error", .str "Token and accountId are required")]), [])
  else
    match resolveAccount p b.token b.accountId with
    | (.error e, t) => (err500 e "Failed to close all positions", t)
    | (.ok _, t) =>
      match connectAndSync p with
      | (.error e, t3) => (err500 e "Failed to close all positions", t ++ t3)
      | (.ok _, t3) =>
        match p.positionsRes with
        | .error e =>
          (err500 e "Failed to close all positions", t ++ t3 ++ [.getPositions])
        | .ok positions =>
          let (entries, tc) := closeEntries p positions
          (mkResp 200 (Json.obj [("success", .bool true),
            ("message", .str ("Closed " ++
              toString (entries.filter CloseEntry.isOk).length ++ " positions")),
            ("results", .arr (entries.map closeEntryJson))]),
           t ++ t3 ++ [.getPositions] ++ tc)

/-- The deal projection of the get-history route. -/
def dealJson (d : Deal) : Json :=
  Json.obj [("id", .str d.id), ("symbol", .str d.symbol), ("type", .str d.type),
    ("volume", .num d.volume), ("entryPrice", .num d.entryPrice),
    ("price", .num d.price), ("profit", .num d.profit),
    ("commission", .num d.commission), ("swap", .num d.swap),
    ("time", .str d.time), ("platform", .str d.platform),
    ("magic", .num d.magic), ("comment", .str d.comment)]

/-- Destructuring default `limit = 20`: applies only when the body value is
`undefined`; any other value (null, 0, ...) is kept as supplied. -/
def resolveLimit (v : JsVal) : JsVal :=
  match v with
  | .undefined => .num (some 20)
  | w => w

/-- The end argument of `Array.prototype.slice(0, v)` converted per
ECMAScript ToIntegerOrInfinity: `undefined` means the array's length
(`none`); `null`, `NaN` and non-numeric strings give 0; numbers truncate
toward zero. -/
def sliceEnd : JsVal → Option ℤ
  | .undefined => none
  | .null => some 0
  | .bool b => some (if b then 1 else 0)
  | .num none => some 0
  | .num (some q) => some (if 0 ≤ q then ⌊q⌋ else ⌈q⌉)
  | .str s =>
    let cs := s.data.dropWhile (fun c => c == ' ')
    some (match parseNumChars cs with
      | none => if cs.isEmpty then 0 else 0
      | some (q, rest) =>
        if rest.dropWhile (fun c => c == ' ') |>.isEmpty then
          (if 0 ≤ q then ⌊q⌋ else ⌈q⌉)
        else 0)

/-- `xs.slice(0, v)`. -/
def jsSlice (xs : List Json) (v : JsVal) : List Json :=
  match sliceEnd v with
  | none => xs
  | some k => xs.take k.toNat

/-- `POST /api/metaapi/get-history` (src/server.js lines 312-364).  `now`
is the request's wall-clock instant in milliseconds: `startTime` falsy
defaults the range start to thirty days before `now`, and the range end is
`new Date()` = `now`. -/
def getHistoryRoute (p : Provider) (b : ReqBody) (now : ℤ) : HttpResponse × Trace :=
  if !(truthy b.token && truthy b.accountId) then
    (mkResp 400 (Json.obj [("error", .str "Token and accountId are required")]), [])
  else
    match resolveAccount p b.token b.accountId with
    | (.error e, t) => (err500 e "Failed to fetch history", t)
    | (.ok acct, t) =>
      match ensureDeployed p acct.state with
      | (.error e, t2) => (err500 e "Failed to fetch history", t ++ t2)
      | (.ok _, t2) =>
        match connectAndSync p with
        | (.error e, t3) => (err500 e "Failed to fetch history", t ++ t2 ++ t3)
        | (.ok _, t3) =>
          let startDate : JsDate :=
            if truthy b.startTime then .ofValue b.startTime
            else .ofMillis (now - 30 * 24 * 60 * 60 * 1000)
          match p.historyDealsRes startDate (.ofMillis now) with
          | .error e =>
            (err500 e "Failed to fetch history",
             t ++ t2 ++ t3 ++ [.getHistoryDealsByTimeRange startDate (.ofMillis now)])
          | .ok deals =>
            (mkResp 200 (Json.obj [("success", .bool true),
              ("deals", .arr (jsSlice (deals.map dealJson) (resolveLimit b.limit)))]),
             t ++ t2 ++ t3 ++ [.getHistoryDealsByTimeRange startDate (.ofMillis now)])

/-! ## Helper lemmas about the shared fragments -/

/-- The lifecycle guard is skipped entirely on an already-deployed account. -/
theorem ensureDeployed_deployed (p : Provider) :
    ensureDeployed p "DEPLOYED" = (.ok (), []) := by
  simp [ensureDeployed]

/-- On a not-yet-deployed account the guard either fails at `deploy`,
fails at `waitDeployed`, or succeeds having performed both. -/
theorem ensureDeployed_shape (p : Provider) (st : String) (h : st ≠ "DEPLOYED") :
    (∃ e, ensureDeployed p st = (.error e, [.deploy])) ∨
    (∃ e, ensureDeployed p st = (.error e, [.deploy, .waitDeployed])) ∨
    ensureDeployed p st = (.ok (), [.deploy, .waitDeployed]) := by
  unfold ensureDeployed
  simp only [h, if_false]
  cases p.deployRes with
  | error e => exact Or.inl ⟨e, rfl⟩
  | ok _ =>
    cases p.waitDeployedRes with
    | error e => exact Or.inr (Or.inl ⟨e, rfl⟩)
    | ok _ => exact Or.inr (Or.inr rfl)

/-- Connection establishment either fails at `connect`, fails at
`waitSynchronized`, or succeeds having performed all three steps. -/
theorem connectAndSync_shape (p : Provider) :
    (∃ e, connectAndSync p = (.error e, [.getRPCConnection, .connect])) ∨
    (∃ e, connectAndSync p = (.error e, [.getRPCConnection, .connect, .waitSynchronized])) ∨
    connectAndSync p = (.ok (), [.getRPCConnection, .connect, .waitSynchronized]) := by
  unfold connectAndSync
  cases p.connectRes with
  | error e => exact Or.inl ⟨e, rfl⟩
  | ok _ =>
    cases p.waitSyncRes with
    | error e => exact Or.inr (Or.inl ⟨e, rfl⟩)
    | ok _ => exact Or.inr (Or.inr rfl)

/-- Keys of a serialized JSON object. -/
def jsonKeys : Json → List String
  | .obj kvs => kvs.map Prod.fst
  | _ => []

/-- C3: a request missing a required field is answered with status 400 and
an empty provider-call trace. -/
theorem C3_missing_field_no_calls (p : Provider) (b : ReqBody) (now : ℤ) :
    (b.token = .undefined →
      (accountsRoute p b).1.status = 400 ∧ (accountsRoute p b).2 = []) ∧
    (b.token = .undefined ∨ b.accountId = .undefined →
      (testConnection p b).1.status = 400 ∧ (testConnection p b).2 = []) ∧
    (b.token = .undefined ∨ b.accountId = .undefined ∨ b.symbol = .undefined ∨
        b.direction = .undefined ∨ b.volume = .undefined →
      (executeTrade p b).1.status = 400 ∧ (executeTrade p b).2 = []) ∧
    (b.token = .undefined ∨ b.accountId = .undefined →
      (getPositionsRoute p b).1.status = 400 ∧ (getPositionsRoute p b).2 = []) ∧
    (b.token = .undefined ∨ b.accountId = .undefined ∨ b.positionId = .undefined →
      (closePositionRoute p b).1.status = 400 ∧ (closePositionRoute p b).2 = []) ∧
    (b.token = .undefined ∨ b.accountId = .undefined →
      (closeAllPositionsRoute p b).1.status = 400 ∧ (closeAllPositionsRoute p b).2 = []) ∧
    (b.token = .undefined ∨ b.accountId = .undefined →
      (getHistoryRoute p b now).1.status = 400 ∧ (getHistoryRoute p b now).2 = []) := by
  refine ⟨?_, ?_, ?_, ?_, ?_, ?_, ?_⟩
  · intro h
    simp [accountsRoute, h, truthy, mkResp]
  · rintro (h | h) <;> simp [testConnection, h, truthy, mkResp]
  · rintro (h | h | h | h | h) <;> simp [executeTrade, h, truthy, mkResp]
  · rintro (h | h) <;> simp [getPositionsRoute, h, truthy, mkResp]
  · rintro (h | h | h) <;> simp [closePositionRoute, h, truthy, mkResp]
  · rintro (h | h) <;> simp [closeAllPositionsRoute, h, truthy, mkResp]
  · rintro (h | h) <;> simp [getHistoryRoute, h, truthy, mkResp]

/-- C8: the accounts route returns exactly the nine documented attributes
per account; the projection is insensitive to any further provider-internal
fields. -/
theorem C8_account_projection (p : Provider) (b : ReqBody) (as : List Account)
    (ht : truthy b.token = true) (ha : p.accountsRes = .ok as) :
    accountsRoute p b = (mkResp 200 (Json.obj [("success", .bool true),
        ("accounts", .arr (as.map cleanAccountJson))]),
      [.newMetaApi b.token, .getAccounts]) ∧
    (∀ a : Account, ∀ e1 e2 : List (String × String),
      cleanAccountJson { a with extra := e1 } = cleanAccountJson { a with extra := e2 }) ∧
    (∀ a : Account, jsonKeys (cleanAccountJson a) =
      ["id", "name", "type", "login", "server", "region", "state",
       "connectionStatus", "magic"]) := by
  refine ⟨?_, ?_, ?_⟩
  · simp [accountsRoute, ht, ha]
  · intro a e1 e2
    simp [cleanAccountJson]
  · intro a
    simp [cleanAccountJson, jsonKeys]

/-! ## Concrete fixtures for witnesses and counterexamples -/

/-- A deployed account carrying an extra provider-internal field. -/
def acctD : Account :=
  ⟨"acc1", "Main", "cloud", "12345", "Broker-Srv", "new-york", "DEPLOYED",
   "CONNECTED", 7, [("internalField", "secret")]⟩

/-- The same account before deployment. -/
def acctU : Account := { acctD with state := "UNDEPLOYED" }

def posA : Position := ⟨"A", "EURUSD", "POSITION_TYPE_BUY", 1, 1, 1, 0, 0, 0, 0, 0, "t0"⟩

def posB : Position := { posA with id := "B" }

def posC : Position := { posA with id := "C" }

def mkDeal (i : ℕ) : Deal :=
  ⟨toString i, "EURUSD", "DEAL_TYPE_BUY", 1, 1, 1, 0, 0, 0, "t", "mt5", 0, "fill"⟩

/-- Fifty provider-side deals. -/
def deals50 : List Deal := (List.range 50).map mkDeal

/-- A provider where every call succeeds (position B's close fails, for the
close-all partial-failure scenario). -/
def pOk : Provider where
  accountsRes := .ok [acctD]
  getAccountRes := fun _ => .ok acctD
  deployRes := .ok ()
  waitDeployedRes := .ok ()
  connectRes := .ok ()
  waitSyncRes := .ok ()
  accountInfoRes := .ok ⟨1000, 1000, "USD"⟩
  marketBuyRes := fun _ _ _ _ => .ok ⟨"ord1", "pos1"⟩
  marketSellRes := fun _ _ _ _ => .ok ⟨"ord2", "pos2"⟩
  positionsRes := .ok [posA, posB, posC]
  closePositionRes := fun v => if v = .str "B" then .error "boom" else .ok ⟨"ord9"⟩
  historyDealsRes := fun _ _ => .ok deals50

/-- Same provider, but account resolution yields the undeployed account. -/
def pU : Provider := { pOk with getAccountRes := fun _ => .ok acctU }

def bEmpty : ReqBody := {}

def bTok : ReqBody := { token := .str "t" }

def bTA : ReqBody := { token := .str "t", accountId := .str "a" }

theorem C3_missing_field_no_calls_witness :
    ((accountsRoute pOk bEmpty).1.status = 400 ∧ (accountsRoute pOk bEmpty).2 = []) ∧
    ((testConnection pOk bEmpty).1.status = 400 ∧ (testConnection pOk bEmpty).2 = []) ∧
    ((executeTrade pOk bEmpty).1.status = 400 ∧ (executeTrade pOk bEmpty).2 = []) ∧
    ((getPositionsRoute pOk bEmpty).1.status = 400 ∧ (getPositionsRoute pOk bEmpty).2 = []) ∧
    ((closePositionRoute pOk bEmpty).1.status = 400 ∧ (closePositionRoute pOk bEmpty).2 = []) ∧
    ((closeAllPositionsRoute pOk bEmpty).1.status = 400 ∧
      (closeAllPositionsRoute pOk bEmpty).2 = []) ∧
    ((getHistoryRoute pOk bEmpty 0).1.status = 400 ∧ (getHistoryRoute pOk bEmpty 0).2 = []) := by
  obtain ⟨h1, h2, h3, h4, h5, h6, h7⟩ := C3_missing_field_no_calls pOk bEmpty 0
  exact ⟨h1 rfl, h2 (Or.inl rfl), h3 (Or.inl rfl), h4 (Or.inl rfl), h5 (Or.inl rfl),
    h6 (Or.inl rfl), h7 (Or.inl rfl)⟩

theorem C8_account_projection_witness :
    accountsRoute pOk bTok = (mkResp 200 (Json.obj [("success", .bool true),
        ("accounts", .arr [cleanAccountJson acctD])]),
      [.newMetaApi (.str "t"), .getAccounts]) ∧
    cleanAccountJson { acctD with extra := [("internalField", "secret")] } =
      cleanAccountJson { acctD with extra := [] } ∧
    jsonKeys (cleanAccountJson acctD) =
      ["id", "name", "type", "login", "server", "region", "state",
       "connectionStatus", "magic"] := by
  obtain ⟨h1, h2, h3⟩ := C8_account_projection pOk bTok [acctD] (by decide) rfl
  exact ⟨h1, h2 acctD [("internalField", "secret")] [], h3 acctD⟩

/-- Slicing with a natural-number end argument takes exactly that many
elements. -/
theorem jsSlice_natCast (xs : List Json) (n : ℕ) :
    jsSlice xs (.num (some (n : ℚ))) = xs.take n := by
  simp [jsSlice, sliceEnd, Int.floor_natCast]

/-- C5: get-history truncates after projection — default 20 deals when
`limit` is absent, the first `n` when `limit` is the number `n`; the
provider's ordering is preserved (the result is an initial segment of the
projected provider list, never re-sorted). -/
theorem C5_history_truncation (p : Provider) (b : ReqBody) (now : ℤ) (a : Account)
    (ds : List Deal)
    (ht : truthy b.token = true) (ha : truthy b.accountId = true)
    (hacc : p.getAccountRes b.accountId = .ok a) (hst : a.state = "DEPLOYED")
    (hc : p.connectRes = .ok ()) (hw : p.waitSyncRes = .ok ())
    (hd : ∀ s e, p.historyDealsRes s e = .ok ds) :
    (b.limit = .undefined →
      (getHistoryRoute p b now).1 = mkResp 200 (Json.obj [("success", .bool true),
        ("deals", .arr ((ds.map dealJson).take 20))])) ∧
    (∀ n : ℕ, b.limit = .num (some (n : ℚ)) →
      (getHistoryRoute p b now).1 = mkResp 200 (Json.obj [("success", .bool true),
        ("deals", .arr ((ds.map dealJson).take n))])) := by
  constructor
  · intro h
    have h20 := jsSlice_natCast (ds.map dealJson) 20
    norm_num at h20
    simp [getHistoryRoute, ht, ha, resolveAccount, hacc, hst, ensureDeployed_deployed,
      connectAndSync, hc, hw, hd, h, resolveLimit, h20]
  · intro n h
    simp [getHistoryRoute, ht, ha, resolveAccount, hacc, hst, ensureDeployed_deployed,
      connectAndSync, hc, hw, hd, h, resolveLimit, jsSlice_natCast]

def bLim5 : ReqBody := { bTA with limit := .num (some 5) }

theorem C5_history_truncation_witness :
    ((getHistoryRoute pOk bTA 0).1 = mkResp 200 (Json.obj [("success", .bool true),
      ("deals", .arr ((deals50.map dealJson).take 20))])) ∧
    ((getHistoryRoute pOk bLim5 0).1 = mkResp 200 (Json.obj [("success", .bool true),
      ("deals", .arr ((deals50.map dealJson).take 5))])) ∧
    deals50.length = 50 := by
  refine ⟨?_, ?_, by decide⟩
  · exact (C5_history_truncation pOk bTA 0 acctD deals50 (by decide) (by decide) rfl rfl rfl
      rfl (fun _ _ => rfl)).1 rfl
  · exact (C5_history_truncation pOk bLim5 0 acctD deals50 (by decide) (by decide) rfl rfl rfl
      rfl (fun _ _ => rfl)).2 5 (by rw [show ((5 : ℕ) : ℚ) = (5 : ℚ) from by norm_num]; rfl)

/-- An absent field is falsy. -/
theorem truthy_undef : truthy JsVal.undefined = false := rfl

/-- A boolean field is exactly as truthy as its value. -/
theorem truthy_bool (c : Bool) : truthy (JsVal.bool c) = c := rfl

/-- C6: with no `startTime` in the body, the deal query's range is exactly
the thirty days ending at the request's clock instant `now`. -/
theorem C6_history_default_window (p : Provider) (b : ReqBody) (now : ℤ) (a : Account)
    (ht : truthy b.token = true) (ha : truthy b.accountId = true)
    (hacc : p.getAccountRes b.accountId = .ok a) (hst : a.state = "DEPLOYED")
    (hc : p.connectRes = .ok ()) (hw : p.waitSyncRes = .ok ())
    (hs : b.startTime = .undefined) :
    ProviderCall.getHistoryDealsByTimeRange
      (.ofMillis (now - 30 * 24 * 60 * 60 * 1000)) (.ofMillis now)
      ∈ (getHistoryRoute p b now).2 := by
  have h30 : (30 : ℤ) * 24 * 60 * 60 * 1000 = 2592000000 := by norm_num
  rw [h30]
  cases hres : p.historyDealsRes (.ofMillis (now - 2592000000)) (.ofMillis now) with
  | error e =>
    simp [getHistoryRoute, ht, ha, resolveAccount, hacc, hst, ensureDeployed_deployed,
      connectAndSync, hc, hw, hs, truthy_undef, hres]
  | ok ds =>
    simp [getHistoryRoute, ht, ha, resolveAccount, hacc, hst, ensureDeployed_deployed,
      connectAndSync, hc, hw, hs, truthy_undef, hres]

theorem C6_history_default_window_witness :
    ProviderCall.getHistoryDealsByTimeRange
      (.ofMillis (1000000 - 30 * 24 * 60 * 60 * 1000)) (.ofMillis 1000000)
      ∈ (getHistoryRoute pOk bTA 1000000).2 :=
  C6_history_default_window pOk bTA 1000000 acctD (by decide) (by decide) rfl rfl rfl rfl rfl

/-- C10: a present but falsy `limit` (null or 0) escapes the destructuring
default and is used directly by `slice`, so the response's deal list is
empty no matter what the provider returned. -/
theorem C10_falsy_limit_empty (p : Provider) (b : ReqBody) (now : ℤ) (a : Account)
    (ds : List Deal)
    (ht : truthy b.token = true) (ha : truthy b.accountId = true)
    (hacc : p.getAccountRes b.accountId = .ok a) (hst : a.state = "DEPLOYED")
    (hc : p.connectRes = .ok ()) (hw : p.waitSyncRes = .ok ())
    (hd : ∀ s e, p.historyDealsRes s e = .ok ds)
    (hl : b.limit = .null ∨ b.limit = .num (some 0)) :
    (getHistoryRoute p b now).1 = mkResp 200 (Json.obj [("success", .bool true),
      ("deals", .arr [])]) := by
  rcases hl with h | h <;>
    simp [getHistoryRoute, ht, ha, resolveAccount, hacc, hst, ensureDeployed_deployed,
      connectAndSync, hc, hw, hd, h, resolveLimit, jsSlice, sliceEnd]

def bLim0 : ReqBody := { bTA with limit := .num (some 0) }

def bLimNull : ReqBody := { bTA with limit := .null }

theorem C10_falsy_limit_empty_witness :
    ((getHistoryRoute pOk bLim0 0).1 = mkResp 200 (Json.obj [("success", .bool true),
      ("deals", .arr [])])) ∧
    ((getHistoryRoute pOk bLimNull 0).1 = mkResp 200 (Json.obj [("success", .bool true),
      ("deals", .arr [])])) ∧
    deals50.length = 50 := by
  refine ⟨?_, ?_, by decide⟩
  · exact C10_falsy_limit_empty pOk bLim0 0 acctD deals50 (by decide) (by decide) rfl rfl rfl
      rfl (fun _ _ => rfl) (Or.inr rfl)
  · exact C10_falsy_limit_empty pOk bLimNull 0 acctD deals50 (by decide) (by decide) rfl rfl rfl
      rfl (fun _ _ => rfl) (Or.inl rfl)

/-! ## Close-all-positions: partial failure semantics (C4) -/

/-- The per-position outcome the loop should produce, stated independently
of the loop as a map over the position list. -/
def closeEntrySpec (p : Provider) (pos : Position) : CloseEntry :=
  match p.closePositionRes (.str pos.id) with
  | .ok r => CloseEntry.ok pos.id r.orderId
  | .error e => CloseEntry.fail pos.id e

/-- The sequential close loop is the map of the per-position outcome, and
its trace is one `closePosition` call per position in iteration order. -/
theorem closeEntries_eq_map (p : Provider) (ps : List Position) :
    closeEntries p ps = (ps.map (closeEntrySpec p),
      ps.map (fun pos => ProviderCall.closePosition (.str pos.id))) := by
  induction ps with
  | nil => rfl
  | cons pos rest ih =>
    simp [closeEntries, ih, closeEntrySpec]

/-- C4: close-all-positions attempts every position's close independently
and in iteration order; the result list has one entry per position — the
position id together with success/orderId or failure/error message — and
the aggregate message counts the successful closes. -/
theorem C4_close_all_partial_failure (p : Provider) (b : ReqBody) (a : Account)
    (ps : List Position)
    (ht : truthy b.token = true) (ha : truthy b.accountId = true)
    (hacc : p.getAccountRes b.accountId = .ok a)
    (hc : p.connectRes = .ok ()) (hw : p.waitSyncRes = .ok ())
    (hpos : p.positionsRes = .ok ps) :
    closeAllPositionsRoute p b = (mkResp 200 (Json.obj [("success", .bool true),
      ("message", .str ("Closed " ++
        toString ((ps.map (closeEntrySpec p)).filter CloseEntry.isOk).length ++
        " positions")),
      ("results", .arr ((ps.map (closeEntrySpec p)).map closeEntryJson))]),
      [.newMetaApi b.token, .getAccount b.accountId, .getRPCConnection, .connect,
        .waitSynchronized, .getPositions] ++
        ps.map (fun pos => ProviderCall.closePosition (.str pos.id))) ∧
    ((ps.map (closeEntrySpec p)).map closeEntryJson).length = ps.length := by
  constructor
  · simp [closeAllPositionsRoute, ht, ha, resolveAccount, hacc, connectAndSync, hc, hw,
      hpos, closeEntries_eq_map]
  · simp

theorem C4_close_all_partial_failure_witness :
    closeAllPositionsRoute pOk bTA = (mkResp 200 (Json.obj [("success", .bool true),
      ("message", .str "Closed 2 positions"),
      ("results", .arr [
        .obj [("positionId", .str "A"), ("success", .bool true), ("orderId", .str "ord9")],
        .obj [("positionId", .str "B"), ("success", .bool false), ("error", .str "boom")],
        .obj [("positionId", .str "C"), ("success", .bool true), ("orderId", .str "ord9")]])]),
      [.newMetaApi (.str "t"), .getAccount (.str "a"), .getRPCConnection, .connect,
        .waitSynchronized, .getPositions, .closePosition (.str "A"),
        .closePosition (.str "B"), .closePosition (.str "C")]) ∧
    (([posA, posB, posC].map (closeEntrySpec pOk)).map closeEntryJson).length = 3 :=
  C4_close_all_partial_failure pOk bTA acctD [posA, posB, posC]
    (by decide) (by decide) rfl rfl rfl rfl

/-! ## Execute-trade stopLoss/takeProfit leniency (C9) -/

theorem numOrUndefined_none : numOrUndefined none = none := rfl

/-- Fully evaluated run of execute-trade when the (string) direction
uppercases to BUY and the chain up to synchronization succeeds. -/
theorem executeTrade_buy_run (p : Provider) (b : ReqBody) (a : Account) (s : String)
    (ht : truthy b.token = true) (ha : truthy b.accountId = true)
    (hsym : truthy b.symbol = true) (hvol : truthy b.volume = true)
    (hdir : b.direction = .str s) (hsne : s ≠ "") (hbuy : toUpperString s = "BUY")
    (hacc : p.getAccountRes b.accountId = .ok a) (hst : a.state = "DEPLOYED")
    (hc : p.connectRes = .ok ()) (hw : p.waitSyncRes = .ok ()) :
    executeTrade p b = ((match p.marketBuyRes b.symbol (jsParseFloat b.volume)
        (numOrUndefined (jsParseFloat b.stopLoss))
        (numOrUndefined (jsParseFloat b.takeProfit)) with
      | .error e => err500 e "Trade execution failed"
      | .ok r => mkResp 200 (tradeOkBody r)),
      [.newMetaApi b.token, .getAccount b.accountId, .getRPCConnection, .connect,
       .waitSynchronized, .createMarketBuyOrder b.symbol (jsParseFloat b.volume)
         (numOrUndefined (jsParseFloat b.stopLoss))
         (numOrUndefined (jsParseFloat b.takeProfit))]) := by
  have hdts : truthy (JsVal.str s) = true := by simp [truthy, hsne]
  cases hres : p.marketBuyRes b.symbol (jsParseFloat b.volume)
      (numOrUndefined (jsParseFloat b.stopLoss))
      (numOrUndefined (jsParseFloat b.takeProfit)) with
  | error e =>
    simp [executeTrade, ht, ha, hsym, hvol, hdir, hdts, resolveAccount, hacc, hst,
      ensureDeployed_deployed, connectAndSync, hc, hw, hbuy, hres]
  | ok r =>
    simp [executeTrade, ht, ha, hsym, hvol, hdir, hdts, resolveAccount, hacc, hst,
      ensureDeployed_deployed, connectAndSync, hc, hw, hbuy, hres]

/-- C9: an unparseable stopLoss or takeProfit is passed to the market order
as `undefined` (absent) instead of being rejected: the order call still
happens with that parameter `none`, and the response is never a 400
validation error. -/
theorem C9_lenient_sl_tp (p : Provider) (b : ReqBody) (a : Account) (s : String)
    (ht : truthy b.token = true) (ha : truthy b.accountId = true)
    (hsym : truthy b.symbol = true) (hvol : truthy b.volume = true)
    (hdir : b.direction = .str s) (hsne : s ≠ "") (hbuy : toUpperString s = "BUY")
    (hacc : p.getAccountRes b.accountId = .ok a) (hst : a.state = "DEPLOYED")
    (hc : p.connectRes = .ok ()) (hw : p.waitSyncRes = .ok ()) :
    (jsParseFloat b.stopLoss = none →
      ProviderCall.createMarketBuyOrder b.symbol (jsParseFloat b.volume) none
        (numOrUndefined (jsParseFloat b.takeProfit)) ∈ (executeTrade p b).2) ∧
    (jsParseFloat b.takeProfit = none →
      ProviderCall.createMarketBuyOrder b.symbol (jsParseFloat b.volume)
        (numOrUndefined (jsParseFloat b.stopLoss)) none ∈ (executeTrade p b).2) ∧
    (executeTrade p b).1.status ≠ 400 := by
  rw [executeTrade_buy_run p b a s ht ha hsym hvol hdir hsne hbuy hacc hst hc hw]
  refine ⟨?_, ?_, ?_⟩
  · intro hsl
    simp [hsl, numOrUndefined_none]
  · intro htp
    simp [htp, numOrUndefined_none]
  · cases p.marketBuyRes b.symbol (jsParseFloat b.volume)
        (numOrUndefined (jsParseFloat b.stopLoss))
        (numOrUndefined (jsParseFloat b.takeProfit)) with
    | error e => simp [err500, mkResp]
    | ok r => simp [mkResp]

def bTradeBad : ReqBody :=
  { token := .str "t", accountId := .str "a", symbol := .str "EURUSD",
    direction := .str "buy", volume := .num (some 1),
    stopLoss := .str "abc", takeProfit := .str "xyz" }

theorem C9_lenient_sl_tp_witness :
    ProviderCall.createMarketBuyOrder (.str "EURUSD") (some 1) none
      (numOrUndefined (jsParseFloat (.str "xyz"))) ∈ (executeTrade pOk bTradeBad).2 ∧
    (executeTrade pOk bTradeBad).1.status ≠ 400 := by
  have h := C9_lenient_sl_tp pOk bTradeBad acctD "buy" (by decide) (by decide) (by decide)
    (by decide) rfl (by decide) (by decide) rfl rfl rfl rfl
  exact ⟨h.1 (by decide), h.2.2⟩

/-! ## Lifecycle guard placement (C1) -/

def bClose : ReqBody := { token := .str "t", accountId := .str "a", positionId := .str "A" }

/-- C1 counterexample: on an account whose reported state is not DEPLOYED,
the close-position route connects (and close-all-positions likewise)
without ever issuing a deploy/waitDeployed call. -/
theorem C1_counterexample :
    acctU.state ≠ "DEPLOYED" ∧
    pU.getAccountRes (.str "a") = .ok acctU ∧
    ProviderCall.connect ∈ (closePositionRoute pU bClose).2 ∧
    ProviderCall.deploy ∉ (closePositionRoute pU bClose).2 ∧
    ProviderCall.waitDeployed ∉ (closePositionRoute pU bClose).2 ∧
    ProviderCall.connect ∈ (closeAllPositionsRoute pU bTA).2 ∧
    ProviderCall.deploy ∉ (closeAllPositionsRoute pU bTA).2 := by
  refine ⟨by decide, rfl, ?_, ?_, ?_, ?_, ?_⟩ <;> decide

/-- C1 (amended): in the four routes that do run the Lifecycle Guard
(test-connection, execute-trade, get-positions, get-history), whenever the
account's reported state is not DEPLOYED and a connect happens, the first
six provider calls are exactly client construction, account resolution,
deploy, waitDeployed, getRPCConnection, connect — i.e. deployment is
ensured before the connection is opened. -/
theorem C1_guard_before_connect (p : Provider) (b : ReqBody) (now : ℤ) (a : Account)
    (hacc : p.getAccountRes b.accountId = .ok a) (hst : a.state ≠ "DEPLOYED") :
    (ProviderCall.connect ∈ (testConnection p b).2 →
      (testConnection p b).2.take 6 = [.newMetaApi b.token, .getAccount b.accountId,
        .deploy, .waitDeployed, .getRPCConnection, .connect]) ∧
    (ProviderCall.connect ∈ (executeTrade p b).2 →
      (executeTrade p b).2.take 6 = [.newMetaApi b.token, .getAccount b.accountId,
        .deploy, .waitDeployed, .getRPCConnection, .connect]) ∧
    (ProviderCall.connect ∈ (getPositionsRoute p b).2 →
      (getPositionsRoute p b).2.take 6 = [.newMetaApi b.token, .getAccount b.accountId,
        .deploy, .waitDeployed, .getRPCConnection, .connect]) ∧
    (ProviderCall.connect ∈ (getHistoryRoute p b now).2 →
      (getHistoryRoute p b now).2.take 6 = [.newMetaApi b.token, .getAccount b.accountId,
        .deploy, .waitDeployed, .getRPCConnection, .connect]) := by
  have hED := ensureDeployed_shape p a.state hst
  have hCS := connectAndSync_shape p
  refine ⟨?_, ?_, ?_, ?_⟩
  · intro hmem
    by_cases hv : (truthy b.token && truthy b.accountId) = true
    · rcases hED with ⟨e1, he⟩ | ⟨e1, he⟩ | he
      · simp [testConnection, hv, resolveAccount, hacc, he] at hmem
      · simp [testConnection, hv, resolveAccount, hacc, he] at hmem
      · rcases hCS with ⟨e1, hcs⟩ | ⟨e1, hcs⟩ | hcs
        · simp [testConnection, hv, resolveAccount, hacc, he, hcs]
        · simp [testConnection, hv, resolveAccount, hacc, he, hcs]
        · cases hai : p.accountInfoRes <;>
            simp [testConnection, hv, resolveAccount, hacc, he, hcs, hai]
    · simp only [Bool.not_eq_true] at hv
      simp [testConnection, hv] at hmem
  · intro hmem
    by_cases hv : (truthy b.token && truthy b.accountId && truthy b.symbol &&
        truthy b.direction && truthy b.volume) = true
    · have hconj := hv
      simp only [Bool.and_eq_true] at hconj
      obtain ⟨⟨⟨⟨ht1, ht2⟩, ht3⟩, ht4⟩, ht5⟩ := hconj
      rcases hED with ⟨e1, he⟩ | ⟨e1, he⟩ | he
      · simp [executeTrade, hv, resolveAccount, hacc, he] at hmem
      · simp [executeTrade, hv, resolveAccount, hacc, he] at hmem
      · rcases hCS with ⟨e1, hcs⟩ | ⟨e1, hcs⟩ | hcs
        · simp [executeTrade, hv, resolveAccount, hacc, he, hcs]
        · simp [executeTrade, hv, resolveAccount, hacc, he, hcs]
        · cases hd : b.direction with
          | str s =>
            rw [hd] at ht4
            by_cases hbuy : toUpperString s = "BUY"
            · cases hmb : p.marketBuyRes b.symbol (jsParseFloat b.volume)
                  (numOrUndefined (jsParseFloat b.stopLoss))
                  (numOrUndefined (jsParseFloat b.takeProfit)) <;>
                simp [executeTrade, ht1, ht2, ht3, ht4, ht5, resolveAccount, hacc, he, hcs,
                  hd, hbuy, hmb]
            · by_cases hsell : toUpperString s = "SELL"
              · cases hms : p.marketSellRes b.symbol (jsParseFloat b.volume)
                    (numOrUndefined (jsParseFloat b.stopLoss))
                    (numOrUndefined (jsParseFloat b.takeProfit)) <;>
                  simp [executeTrade, ht1, ht2, ht3, ht4, ht5, resolveAccount, hacc, he, hcs,
                    hd, hbuy, hsell, hms]
              · simp [executeTrade, ht1, ht2, ht3, ht4, ht5, resolveAccount, hacc, he, hcs,
                  hd, hbuy, hsell]
          | undefined =>
            rw [hd] at ht4
            simp [truthy] at ht4
          | null =>
            rw [hd] at ht4
            simp [truthy] at ht4
          | bool c =>
            rw [hd] at ht4
            simp [truthy] at ht4
            subst ht4
            simp [executeTrade, ht1, ht2, ht3, ht5, resolveAccount, hacc, he, hcs, hd,
              truthy_bool]
          | num q =>
            rw [hd] at ht4
            simp [executeTrade, ht1, ht2, ht3, ht4, ht5, resolveAccount, hacc, he, hcs, hd]
    · simp only [Bool.not_eq_true] at hv
      simp [executeTrade, hv] at hmem
  · intro hmem
    by_cases hv : (truthy b.token && truthy b.accountId) = true
    · rcases hED with ⟨e1, he⟩ | ⟨e1, he⟩ | he
      · simp [getPositionsRoute, hv, resolveAccount, hacc, he] at hmem
      · simp [getPositionsRoute, hv, resolveAccount, hacc, he] at hmem
      · rcases hCS with ⟨e1, hcs⟩ | ⟨e1, hcs⟩ | hcs
        · simp [getPositionsRoute, hv, resolveAccount, hacc, he, hcs]
        · simp [getPositionsRoute, hv, resolveAccount, hacc, he, hcs]
        · cases hpos : p.positionsRes <;>
            simp [getPositionsRoute, hv, resolveAccount, hacc, he, hcs, hpos]
    · simp only [Bool.not_eq_true] at hv
      simp [getPositionsRoute, hv] at hmem
  · intro hmem
    by_cases hv : (truthy b.token && truthy b.accountId) = true
    · rcases hED with ⟨e1, he⟩ | ⟨e1, he⟩ | he
      · simp [getHistoryRoute, hv, resolveAccount, hacc, he] at hmem
      · simp [getHistoryRoute, hv, resolveAccount, hacc, he] at hmem
      · rcases hCS with ⟨e1, hcs⟩ | ⟨e1, hcs⟩ | hcs
        · simp [getHistoryRoute, hv, resolveAccount, hacc, he, hcs]
        · simp [getHistoryRoute, hv, resolveAccount, hacc, he, hcs]
        · by_cases hsv : truthy b.startTime = true
          · cases hh : p.historyDealsRes (.ofValue b.startTime) (.ofMillis now) <;>
              simp [getHistoryRoute, hv, resolveAccount, hacc, he, hcs, hsv, hh]
          · simp only [Bool.not_eq_true] at hsv
            cases hh : p.historyDealsRes (.ofMillis (now - 2592000000)) (.ofMillis now) <;>
              simp [getHistoryRoute, hv, resolveAccount, hacc, he, hcs, hsv, hh]
    · simp only [Bool.not_eq_true] at hv
      simp [getHistoryRoute, hv] at hmem

theorem C1_guard_before_connect_witness :
    (pU.getAccountRes (JsVal.str "a") = .ok acctU ∧ acctU.state ≠ "DEPLOYED") ∧
    (testConnection pU bTA).2.take 6 = [.newMetaApi (.str "t"), .getAccount (.str "a"),
      .deploy, .waitDeployed, .getRPCConnection, .connect] :=
  ⟨⟨rfl, by decide⟩,
    (C1_guard_before_connect pU bTA 0 acctU rfl (by decide)).1 (by decide)⟩

/-! ## Execute-trade direction dispatch (C2) -/

def bHold : ReqBody :=
  { token := .str "t", accountId := .str "a", symbol := .str "EURUSD",
    direction := .str "HOLD", volume := .num (some 1) }

/-- C2 counterexample: an unrecognized direction does get the 400
validation response, but only after the provider client is constructed,
the account resolved and the connection synchronized — the trace of
provider calls is not empty. -/
theorem C2_counterexample :
    (executeTrade pOk bHold).1 = mkResp 400 badDirectionBody ∧
    (executeTrade pOk bHold).2 ≠ [] ∧
    ProviderCall.getAccount (.str "a") ∈ (executeTrade pOk bHold).2 ∧
    ProviderCall.connect ∈ (executeTrade pOk bHold).2 ∧
    ProviderCall.waitSynchronized ∈ (executeTrade pOk bHold).2 :=
  ⟨rfl, by decide, by decide, by decide, by decide⟩

/-- C2 (amended): with all required fields present and the chain up to
synchronization successful, a direction that uppercases to neither BUY nor
SELL yields the 400 'Direction must be BUY or SELL' response with neither
market-order call issued — but only after client construction, account
resolution and connection synchronization; a direction uppercasing to BUY
issues the market-buy call and to SELL the market-sell call
(case-insensitively). -/
theorem C2_direction_dispatch (p : Provider) (b : ReqBody) (a : Account) (s : String)
    (ht : truthy b.token = true) (ha : truthy b.accountId = true)
    (hsym : truthy b.symbol = true) (hvol : truthy b.volume = true)
    (hdir : b.direction = .str s) (hsne : s ≠ "")
    (hacc : p.getAccountRes b.accountId = .ok a) (hst : a.state = "DEPLOYED")
    (hc : p.connectRes = .ok ()) (hw : p.waitSyncRes = .ok ()) :
    (toUpperString s ≠ "BUY" → toUpperString s ≠ "SELL" →
      executeTrade p b = (mkResp 400 badDirectionBody,
        [.newMetaApi b.token, .getAccount b.accountId, .getRPCConnection, .connect,
         .waitSynchronized])) ∧
    (toUpperString s = "BUY" →
      ProviderCall.createMarketBuyOrder b.symbol (jsParseFloat b.volume)
        (numOrUndefined (jsParseFloat b.stopLoss))
        (numOrUndefined (jsParseFloat b.takeProfit)) ∈ (executeTrade p b).2) ∧
    (toUpperString s = "SELL" →
      ProviderCall.createMarketSellOrder b.symbol (jsParseFloat b.volume)
        (numOrUndefined (jsParseFloat b.stopLoss))
        (numOrUndefined (jsParseFloat b.takeProfit)) ∈ (executeTrade p b).2) := by
  have hdts : truthy (JsVal.str s) = true := by simp [truthy, hsne]
  refine ⟨?_, ?_, ?_⟩
  · intro hb hs2
    simp [executeTrade, ht, ha, hsym, hvol, hdir, hdts, resolveAccount, hacc, hst,
      ensureDeployed_deployed, connectAndSync, hc, hw, hb, hs2]
  · intro hbuy
    rw [executeTrade_buy_run p b a s ht ha hsym hvol hdir hsne hbuy hacc hst hc hw]
    simp
  · intro hsell
    have hbuy : ¬(toUpperString s = "BUY") := by simp [hsell]
    cases hms : p.marketSellRes b.symbol (jsParseFloat b.volume)
        (numOrUndefined (jsParseFloat b.stopLoss))
        (numOrUndefined (jsParseFloat b.takeProfit)) with
    | error e =>
      simp [executeTrade, ht, ha, hsym, hvol, hdir, hdts, resolveAccount, hacc, hst,
        ensureDeployed_deployed, connectAndSync, hc, hw, hbuy, hsell, hms]
    | ok r =>
      simp [executeTrade, ht, ha, hsym, hvol, hdir, hdts, resolveAccount, hacc, hst,
        ensureDeployed_deployed, connectAndSync, hc, hw, hbuy, hsell, hms]

def bSell : ReqBody := { bHold with direction := .str "sell" }

theorem C2_direction_dispatch_witness :
    (executeTrade pOk bHold = (mkResp 400 badDirectionBody,
      [.newMetaApi (.str "t"), .getAccount (.str "a"), .getRPCConnection, .connect,
       .waitSynchronized])) ∧
    ProviderCall.createMarketSellOrder (.str "EURUSD") (some 1) none none
      ∈ (executeTrade pOk bSell).2 :=
  ⟨(C2_direction_dispatch pOk bHold acctD "HOLD" (by decide) (by decide) (by decide)
      (by decide) rfl (by decide) rfl rfl rfl rfl).1 (by decide) (by decide),
   (C2_direction_dispatch pOk bSell acctD "sell" (by decide) (by decide) (by decide)
      (by decide) rfl (by decide) rfl rfl rfl rfl).2.2 (by decide)⟩

/-! ## Generic catch mapping (C7) -/

/-- The lifecycle guard, on any state, either fails or succeeds. -/
theorem ensureDeployed_cases (p : Provider) (st : String) :
    (∃ e t, ensureDeployed p st = (Except.error e, t)) ∨
    ∃ t, ensureDeployed p st = (Except.ok (), t) := by
  by_cases h : st = "DEPLOYED"
  · exact Or.inr ⟨[], by simp [ensureDeployed, h]⟩
  · cases hd : p.deployRes with
    | error e => exact Or.inl ⟨e, [.deploy], by simp [ensureDeployed, h, hd]⟩
    | ok u =>
      cases hwd : p.waitDeployedRes with
      | error e =>
        exact Or.inl ⟨e, [.deploy, .waitDeployed], by simp [ensureDeployed, h, hd, hwd]⟩
      | ok v => exact Or.inr ⟨[.deploy, .waitDeployed], by simp [ensureDeployed, h, hd, hwd]⟩

/-- Connection establishment either fails or succeeds. -/
theorem connectAndSync_cases (p : Provider) :
    (∃ e t, connectAndSync p = (Except.error e, t)) ∨
    ∃ t, connectAndSync p = (Except.ok (), t) := by
  cases hc : p.connectRes with
  | error e => exact Or.inl ⟨e, [.getRPCConnection, .connect], by simp [connectAndSync, hc]⟩
  | ok u =>
    cases hw : p.waitSyncRes with
    | error e =>
      exact Or.inl ⟨e, [.getRPCConnection, .connect, .waitSynchronized],
        by simp [connectAndSync, hc, hw]⟩
    | ok v =>
      exact Or.inr ⟨[.getRPCConnection, .connect, .waitSynchronized],
        by simp [connectAndSync, hc, hw]⟩

/-- Any 500 response carries exactly the uniform failure envelope
`{success:false, error:<string>}` — no stack trace, no error-kind
discrimination. -/
def uniform500 (r : HttpResponse × Trace) : Prop :=
  r.1.status = 500 →
    ∃ m, r.1.body = Json.obj [("success", .bool false), ("error", .str m)]

/-- C7 (amended): every route's 500 response body is exactly the uniform
envelope, and a provider exception with a non-empty message is surfaced
verbatim as that envelope's error string (an empty/falsy message is
replaced by the route's fallback text, which is what keeps the original
claim from holding verbatim). -/
theorem C7_generic_catch (p : Provider) (b : ReqBody) (now : ℤ) (e : String)
    (he : e ≠ "") :
    uniform500 (accountsRoute p b) ∧
    uniform500 (testConnection p b) ∧
    uniform500 (executeTrade p b) ∧
    uniform500 (getPositionsRoute p b) ∧
    uniform500 (closePositionRoute p b) ∧
    uniform500 (closeAllPositionsRoute p b) ∧
    uniform500 (getHistoryRoute p b now) ∧
    (truthy b.token = true → p.accountsRes = .error e →
      accountsRoute p b = (mkResp 500 (errBody e), [.newMetaApi b.token, .getAccounts])) ∧
    (truthy b.token = true → truthy b.accountId = true →
      p.getAccountRes b.accountId = .error e →
      testConnection p b = (mkResp 500 (errBody e),
        [.newMetaApi b.token, .getAccount b.accountId]) ∧
      getPositionsRoute p b = (mkResp 500 (errBody e),
        [.newMetaApi b.token, .getAccount b.accountId]) ∧
      closeAllPositionsRoute p b = (mkResp 500 (errBody e),
        [.newMetaApi b.token, .getAccount b.accountId]) ∧
      getHistoryRoute p b now = (mkResp 500 (errBody e),
        [.newMetaApi b.token, .getAccount b.accountId])) := by
  refine ⟨?_, ?_, ?_, ?_, ?_, ?_, ?_, ?_, ?_⟩
  · intro h500
    cases hv : truthy b.token with
    | false => simp [accountsRoute, hv, mkResp] at h500
    | true =>
      cases hres : p.accountsRes with
      | error e2 =>
        exact ⟨msgOr e2 "Failed to fetch accounts",
          by simp [accountsRoute, hv, hres, err500, errBody, mkResp]⟩
      | ok as2 => simp [accountsRoute, hv, hres, mkResp] at h500
  · intro h500
    cases hv : (truthy b.token && truthy b.accountId) with
    | false => simp [testConnection, hv, mkResp] at h500
    | true =>
      cases hga : p.getAccountRes b.accountId with
      | error e2 =>
        exact ⟨msgOr e2 "Connection test failed",
          by simp [testConnection, hv, resolveAccount, hga, err500, errBody, mkResp]⟩
      | ok a2 =>
        rcases ensureDeployed_cases p a2.state with ⟨e2, t2, he2⟩ | ⟨t2, he2⟩
        · exact ⟨msgOr e2 "Connection test failed",
            by simp [testConnection, hv, resolveAccount, hga, he2, err500, errBody, mkResp]⟩
        · rcases connectAndSync_cases p with ⟨e2, t3, hcs⟩ | ⟨t3, hcs⟩
          · exact ⟨msgOr e2 "Connection test failed",
              by simp [testConnection, hv, resolveAccount, hga, he2, hcs, err500, errBody,
                mkResp]⟩
          · cases hai : p.accountInfoRes with
            | error e2 =>
              exact ⟨msgOr e2 "Connection test failed",
                by simp [testConnection, hv, resolveAccount, hga, he2, hcs, hai, err500,
                  errBody, mkResp]⟩
            | ok info =>
              simp [testConnection, hv, resolveAccount, hga, he2, hcs, hai, mkResp] at h500
  · intro h500
    cases hv : (truthy b.token && truthy b.accountId && truthy b.symbol &&
        truthy b.direction && truthy b.volume) with
    | false => simp [executeTrade, hv, mkResp] at h500
    | true =>
      have hconj := hv
      simp only [Bool.and_eq_true] at hconj
      obtain ⟨⟨⟨⟨ht1, ht2⟩, ht3⟩, ht4⟩, ht5⟩ := hconj
      cases hga : p.getAccountRes b.accountId with
      | error e2 =>
        exact ⟨msgOr e2 "Trade execution failed",
          by simp [executeTrade, hv, resolveAccount, hga, err500, errBody, mkResp]⟩
      | ok a2 =>
        rcases ensureDeployed_cases p a2.state with ⟨e2, t2, he2⟩ | ⟨t2, he2⟩
        · exact ⟨msgOr e2 "Trade execution failed",
            by simp [executeTrade, hv, resolveAccount, hga, he2, err500, errBody, mkResp]⟩
        · rcases connectAndSync_cases p with ⟨e2, t3, hcs⟩ | ⟨t3, hcs⟩
          · exact ⟨msgOr e2 "Trade execution failed",
              by simp [executeTrade, hv, resolveAccount, hga, he2, hcs, err500, errBody,
                mkResp]⟩
          · cases hd : b.direction with
            | undefined =>
              rw [hd] at ht4
              simp [truthy] at ht4
            | null =>
              rw [hd] at ht4
              simp [truthy] at ht4
            | bool c =>
              rw [hd] at ht4
              simp [truthy] at ht4
              subst ht4
              exact ⟨msgOr "direction.toUpperCase is not a function" "Trade execution failed",
                by simp [executeTrade, ht1, ht2, ht3, ht5, truthy_bool, resolveAccount, hga,
                  he2, hcs, hd, err500, errBody, mkResp]⟩
            | num q =>
              rw [hd] at ht4
              exact ⟨msgOr "direction.toUpperCase is not a function" "Trade execution failed",
                by simp [executeTrade, ht1, ht2, ht3, ht4, ht5, resolveAccount, hga, he2, hcs,
                  hd, err500, errBody, mkResp]⟩
            | str s =>
              rw [hd] at ht4
              by_cases hbuy : toUpperString s = "BUY"
              · cases hmb : p.marketBuyRes b.symbol (jsParseFloat b.volume)
                    (numOrUndefined (jsParseFloat b.stopLoss))
                    (numOrUndefined (jsParseFloat b.takeProfit)) with
                | error e2 =>
                  exact ⟨msgOr e2 "Trade execution failed",
                    by simp [executeTrade, ht1, ht2, ht3, ht4, ht5, resolveAccount, hga, he2,
                      hcs, hd, hbuy, hmb, err500, errBody, mkResp]⟩
                | ok r =>
                  simp [executeTrade, ht1, ht2, ht3, ht4, ht5, resolveAccount, hga, he2, hcs,
                    hd, hbuy, hmb, mkResp] at h500
              · by_cases hsell : toUpperString s = "SELL"
                · cases hms : p.marketSellRes b.symbol (jsParseFloat b.volume)
                      (numOrUndefined (jsParseFloat b.stopLoss))
                      (numOrUndefined (jsParseFloat b.takeProfit)) with
                  | error e2 =>
                    exact ⟨msgOr e2 "Trade execution failed",
                      by simp [executeTrade, ht1, ht2, ht3, ht4, ht5, resolveAccount, hga, he2,
                        hcs, hd, hbuy, hsell, hms, err500, errBody, mkResp]⟩
                  | ok r =>
                    simp [executeTrade, ht1, ht2, ht3, ht4, ht5, resolveAccount, hga, he2, hcs,
                      hd, hbuy, hsell, hms, mkResp] at h500
                · simp [executeTrade, ht1, ht2, ht3, ht4, ht5, resolveAccount, hga, he2, hcs,
                    hd, hbuy, hsell, mkResp] at h500
  · intro h500
    cases hv : (truthy b.token && truthy b.accountId) with
    | false => simp [getPositionsRoute, hv, mkResp] at h500
    | true =>
      cases hga : p.getAccountRes b.accountId with
      | error e2 =>
        exact ⟨msgOr e2 "Failed to fetch positions",
          by simp [getPositionsRoute, hv, resolveAccount, hga, err500, errBody, mkResp]⟩
      | ok a2 =>
        rcases ensureDeployed_cases p a2.state with ⟨e2, t2, he2⟩ | ⟨t2, he2⟩
        · exact ⟨msgOr e2 "Failed to fetch positions",
            by simp [getPositionsRoute, hv, resolveAccount, hga, he2, err500, errBody, mkResp]⟩
        · rcases connectAndSync_cases p with ⟨e2, t3, hcs⟩ | ⟨t3, hcs⟩
          · exact ⟨msgOr e2 "Failed to fetch positions",
              by simp [getPositionsRoute, hv, resolveAccount, hga, he2, hcs, err500, errBody,
                mkResp]⟩
          · cases hpos : p.positionsRes with
            | error e2 =>
              exact ⟨msgOr e2 "Failed to fetch positions",
                by simp [getPositionsRoute, hv, resolveAccount, hga, he2, hcs, hpos, err500,
                  errBody, mkResp]⟩
            | ok ps =>
              simp [getPositionsRoute, hv, resolveAccount, hga, he2, hcs, hpos, mkResp] at h500
  · intro h500
    cases hv : (truthy b.token && truthy b.accountId && truthy b.positionId) with
    | false => simp [closePositionRoute, hv, mkResp] at h500
    | true =>
      cases hga : p.getAccountRes b.accountId with
      | error e2 =>
        exact ⟨msgOr e2 "Failed to close position",
          by simp [closePositionRoute, hv, resolveAccount, hga, err500, errBody, mkResp]⟩
      | ok a2 =>
        rcases connectAndSync_cases p with ⟨e2, t3, hcs⟩ | ⟨t3, hcs⟩
        · exact ⟨msgOr e2 "Failed to close position",
            by simp [closePositionRoute, hv, resolveAccount, hga, hcs, err500, errBody,
              mkResp]⟩
        · cases hcp : p.closePositionRes b.positionId with
          | error e2 =>
            exact ⟨msgOr e2 "Failed to close position",
              by simp [closePositionRoute, hv, resolveAccount, hga, hcs, hcp, err500, errBody,
                mkResp]⟩
          | ok r =>
            simp [closePositionRoute, hv, resolveAccount, hga, hcs, hcp, mkResp] at h500
  · intro h500
    cases hv : (truthy b.token && truthy b.accountId) with
    | false => simp [closeAllPositionsRoute, hv, mkResp] at h500
    | true =>
      cases hga : p.getAccountRes b.accountId with
      | error e2 =>
        exact ⟨msgOr e2 "Failed to close all positions",
          by simp [closeAllPositionsRoute, hv, resolveAccount, hga, err500, errBody, mkResp]⟩
      | ok a2 =>
        rcases connectAndSync_cases p with ⟨e2, t3, hcs⟩ | ⟨t3, hcs⟩
        · exact ⟨msgOr e2 "Failed to close all positions",
            by simp [closeAllPositionsRoute, hv, resolveAccount, hga, hcs, err500, errBody,
              mkResp]⟩
        · cases hpos : p.positionsRes with
          | error e2 =>
            exact ⟨msgOr e2 "Failed to close all positions",
              by simp [closeAllPositionsRoute, hv, resolveAccount, hga, hcs, hpos, err500,
                errBody, mkResp]⟩
          | ok ps =>
            simp [closeAllPositionsRoute, hv, resolveAccount, hga, hcs, hpos,
              closeEntries_eq_map, mkResp] at h500
  · intro h500
    cases hv : (truthy b.token && truthy b.accountId) with
    | false => simp [getHistoryRoute, hv, mkResp] at h500
    | true =>
      cases hga : p.getAccountRes b.accountId with
      | error e2 =>
        exact ⟨msgOr e2 "Failed to fetch history",
          by simp [getHistoryRoute, hv, resolveAccount, hga, err500, errBody, mkResp]⟩
      | ok a2 =>
        rcases ensureDeployed_cases p a2.state with ⟨e2, t2, he2⟩ | ⟨t2, he2⟩
        · exact ⟨msgOr e2 "Failed to fetch history",
            by simp [getHistoryRoute, hv, resolveAccount, hga, he2, err500, errBody, mkResp]⟩
        · rcases connectAndSync_cases p with ⟨e2, t3, hcs⟩ | ⟨t3, hcs⟩
          · exact ⟨msgOr e2 "Failed to fetch history",
              by simp [getHistoryRoute, hv, resolveAccount, hga, he2, hcs, err500, errBody,
                mkResp]⟩
          · cases hsv : truthy b.startTime with
            | true =>
              cases hh : p.historyDealsRes (.ofValue b.startTime) (.ofMillis now) with
              | error e2 =>
                exact ⟨msgOr e2 "Failed to fetch history",
                  by simp [getHistoryRoute, hv, resolveAccount, hga, he2, hcs, hsv, hh,
                    err500, errBody, mkResp]⟩
              | ok ds =>
                simp [getHistoryRoute, hv, resolveAccount, hga, he2, hcs, hsv, hh,
                  mkResp] at h500
            | false =>
              cases hh : p.historyDealsRes (.ofMillis (now - 2592000000)) (.ofMillis now) with
              | error e2 =>
                exact ⟨msgOr e2 "Failed to fetch history",
                  by simp [getHistoryRoute, hv, resolveAccount, hga, he2, hcs, hsv, hh,
                    err500, errBody, mkResp]⟩
              | ok ds =>
                simp [getHistoryRoute, hv, resolveAccount, hga, he2, hcs, hsv, hh,
                  mkResp] at h500
  · intro ht hres
    simp [accountsRoute, ht, hres, err500, msgOr, he, errBody]
  · intro ht ha2 hres
    refine ⟨?_, ?_, ?_, ?_⟩ <;>
      simp [testConnection, getPositionsRoute, closeAllPositionsRoute, getHistoryRoute,
        ht, ha2, resolveAccount, hres, err500, msgOr, he, errBody]

/-- A provider whose directory listing throws an error with a falsy
(empty) message. -/
def pEmptyMsg : Provider := { pOk with accountsRes := .error "" }

/-- C7 counterexample: an exception whose message is falsy is answered
with the route's fallback text, not the exception's message — the body is
not exactly `{success:false, error:<the exception's message>}`. -/
theorem C7_counterexample :
    pEmptyMsg.accountsRes = .error "" ∧
    (accountsRoute pEmptyMsg bTok).1 = mkResp 500 (errBody "Failed to fetch accounts") ∧
    ("Failed to fetch accounts" : String) ≠ "" :=
  ⟨rfl, rfl, by decide⟩

/-- A provider whose calls throw an error with message kaput. -/
def pErr : Provider :=
  { pOk with accountsRes := .error "kaput", getAccountRes := fun _ => .error "kaput" }

theorem C7_generic_catch_witness :
    accountsRoute pErr bTA = (mkResp 500 (errBody "kaput"),
      [.newMetaApi (.str "t"), .getAccounts]) ∧
    testConnection pErr bTA = (mkResp 500 (errBody "kaput"),
      [.newMetaApi (.str "t"), .getAccount (.str "a")]) := by
  have h := C7_generic_catch pErr bTA 0 "kaput" (by decide)
  exact ⟨h.2.2.2.2.2.2.2.1 (by decide) rfl,
    (h.2.2.2.2.2.2.2.2 (by decide) (by decide) rfl).1⟩
